import Mathlib

/-!
Verification of the cbudget carbon-budget decision engine.

This file gives a shallow embedding of the core computations of the
repository and proves properties about them:

* `find_optimal_window` (src/cbudget/temporal_window.py): sliding-window
  search for the minimum-average carbon-intensity window.
* `save_transformed_json` and `slice_forecast` (src/cbudget/fetch_forecast.py):
  normalisation of a raw provider forecast and truncation to a duration.
* `enforce_budget` (src/cbudget/enforce_budget.py): the allow/deny budget
  decision around the external OPA policy evaluator.

Conventions of the embedding:

* Python floats are modelled as rationals (`ℚ`); `datetime` instants are
  modelled as rational seconds since an arbitrary epoch, so
  `timedelta(hours=h)` is `3600 * h` and `datetime` subtraction is rational
  subtraction.  `2024-01-01T00:00Z` is 1704067200 in Unix seconds.
* Python `round` (banker's rounding, half to even) is `roundHalfEven`;
  `round(x, 2)` is `pyRound2`.
* A Python statement that raises `ZeroDivisionError` (or another unhandled
  exception) is modelled by an explicit error value of the corresponding
  `Except`/result type, produced at exactly the program point where Python
  would raise.
* `sys.exit(n)` outcomes of `enforce_budget` are modelled by the
  constructors of `EnfResult` together with the `exitCode` function.
* The external OPA process is an explicit input (`OpaProc`): its return
  code, and the result of extracting
  `out["result"][0]["expressions"][0]["value"]` from its stdout
  (`Option.none` when JSON parsing or the extraction chain fails).
-/

/-- A canonical forecast sample: (timestamp in seconds, intensity in g/kWh). -/
abbrev Sample := ℚ × ℚ

/-- A raw provider point: (point_time in seconds, value in lbs/MWh). -/
abbrev RawPoint := ℚ × ℚ

/-- The boolean comparison `key=lambda x: x[0]` used by Python's stable sort
in `find_optimal_window`. -/
def tsLe : Sample → Sample → Bool := fun a b => decide (a.1 ≤ b.1)

/-- Python's `round` with no digits: round half to even (banker's rounding). -/
def roundHalfEven (q : ℚ) : ℤ :=
  if q - Int.floor q < 1 / 2 then Int.floor q
  else if 1 / 2 < q - Int.floor q then Int.floor q + 1
  else if 2 ∣ Int.floor q then Int.floor q
  else Int.floor q + 1

/-- Python's `round(q, 2)`. -/
def pyRound2 (q : ℚ) : ℚ := roundHalfEven (100 * q) / 100

/-- `0.453592`, the lbs/MWh → g/kWh conversion factor of
`save_transformed_json`. -/
def conversionFactor : ℚ := 453592 / 1000000

/-- Python's prefix slice `l[:k]` for an arbitrary (possibly negative)
integer `k`. -/
def pySliceTo (l : List Sample) (k : ℤ) : List Sample :=
  if 0 ≤ k then l.take k.toNat else l.take (l.length - k.natAbs)

/-! ### temporal_window.py -/

/-- The failure modes of `find_optimal_window`.  `insufficientData` and
`windowTooLarge` are the two explicit `raise ValueError` statements;
`zeroDivisionInterval` is the `ZeroDivisionError` raised by
`timedelta(hours=1).total_seconds() // secs_per_sample` when the first two
timestamps coincide; `zeroDivisionAverage` is the `ZeroDivisionError`
raised by `sum(...) / window_size` in the first loop iteration when
`window_size == 0`; `bestStartNone` is the `TypeError` from
`None + timedelta(...)` when the loop never ran. -/
inductive WindowError where
  | insufficientData
  | zeroDivisionInterval
  | windowTooLarge
  | zeroDivisionAverage
  | bestStartNone
  deriving DecidableEq

/-- `samples[1][0] - samples[0][0]`: the seconds between the first two
(sorted) samples, i.e. `delta.total_seconds()`. -/
def firstGap (samples : List Sample) : ℚ :=
  (samples.getD 1 (0, 0)).1 - (samples.getD 0 (0, 0)).1

/-- `int(timedelta(hours=1).total_seconds() // secs_per_sample)`: floor
division, not rounding.  (Only evaluated when `firstGap samples ≠ 0`; after
sorting the gap is nonnegative, so `toNat` is exact.) -/
def samplesPerHourOf (samples : List Sample) : ℕ :=
  (Int.floor ((3600 : ℚ) / firstGap samples)).toNat

/-- `window_size = duration_h * samples_per_hour`. -/
def windowSizeOf (samples : List Sample) (duration_h : ℕ) : ℕ :=
  duration_h * samplesPerHourOf samples

/-- The slice `samples[i : i + w]`. -/
def blockOf (samples : List Sample) (w i : ℕ) : List Sample :=
  (samples.drop i).take w

/-- `sum(val for _, val in window) / window_size` for the block starting
at index `i`. -/
def blockAvg (samples : List Sample) (w i : ℕ) : ℚ :=
  ((blockOf samples w i).map Prod.snd).sum / w

/-- `window[0][0]`: the timestamp of the first sample of the block starting
at index `i`. -/
def blockStartTs (samples : List Sample) (w i : ℕ) : ℚ :=
  ((blockOf samples w i).headD (0, 0)).1

/-- One iteration of the sliding loop: `if avg < best_avg: best_avg = avg;
best_start = window[0][0]`.  The accumulator is `none` before the first
iteration (`best_avg = inf`, `best_start = None`): the first computed
average always replaces it. -/
def slideStep (samples : List Sample) (w : ℕ) (acc : Option (ℚ × ℚ)) (i : ℕ) :
    Option (ℚ × ℚ) :=
  match acc with
  | Option.none => some (blockStartTs samples w i, blockAvg samples w i)
  | some (bs, ba) =>
    if blockAvg samples w i < ba then some (blockStartTs samples w i, blockAvg samples w i)
    else some (bs, ba)

/-- `find_optimal_window` after the parse-and-sort step, operating on the
sorted sample list. -/
def findCore (samples : List Sample) (duration_h : ℕ) :
    Except WindowError (ℚ × ℚ × ℚ) :=
  if samples.length < 2 then Except.error WindowError.insufficientData
  else if firstGap samples = 0 then Except.error WindowError.zeroDivisionInterval
  else if windowSizeOf samples duration_h > samples.length then
    Except.error WindowError.windowTooLarge
  else if windowSizeOf samples duration_h = 0 then
    Except.error WindowError.zeroDivisionAverage
  else
    match (List.range (samples.length - windowSizeOf samples duration_h + 1)).foldl
        (slideStep samples (windowSizeOf samples duration_h)) Option.none with
    | Option.none => Except.error WindowError.bestStartNone
    | some (bs, ba) => Except.ok (bs, bs + 3600 * duration_h, ba)

/-- `find_optimal_window(forecast_path, duration_h)` of
src/cbudget/temporal_window.py, with the forecast file's `"data"` list as
input.  `samples.sort(key=lambda x: x[0])` is Python's stable sort by
timestamp, i.e. a stable merge sort with comparison `tsLe`.  Returns
`(best_start, best_end, best_avg)`. -/
def find_optimal_window (points : List Sample) (duration_h : ℕ) :
    Except WindowError (ℚ × ℚ × ℚ) :=
  findCore (points.mergeSort tsLe) duration_h

/-! ### fetch_forecast.py -/

/-- Failure modes of the normaliser functions: `zeroDivisionError` is the
`ZeroDivisionError` raised by `60.0 / delta_min` when the first two
timestamps coincide, `noDataError` is the `raise ValueError("No data points
in forecast file")` of `slice_forecast`. -/
inductive NormError where
  | zeroDivisionError
  | noDataError
  deriving DecidableEq

/-- The persisted artifact `{"region": ..., "data": [...]}`. -/
structure NormOutput where
  region : String
  data : List Sample
  deriving DecidableEq

/-- The per-point transformation of `save_transformed_json`: keep the
timestamp (the `"+00:00"` → `"Z"` rewrite does not change the instant) and
convert the value with `round(value * 0.453592, 2)`. -/
def transformMap (points : List RawPoint) : List Sample :=
  points.map fun point => (point.1, pyRound2 (point.2 * conversionFactor))

/-- `delta_min = (t1 - t0).total_seconds() / 60.0` computed from the first
two transformed points. -/
def deltaMin (l : List Sample) : ℚ :=
  ((l.getD 1 (0, 0)).1 - (l.getD 0 (0, 0)).1) / 60

/-- `pts_per_hour = int(round(60.0 / delta_min))`. -/
def ptsPerHour (l : List Sample) : ℤ :=
  roundHalfEven (60 / deltaMin l)

/-- `save_transformed_json(data, output_path, region, duration_h)` of
src/cbudget/fetch_forecast.py, with the raw payload's `"data"` list as
input and the written document as output. -/
def save_transformed_json (data : List RawPoint) (region : String)
    (duration_h : Option ℕ) : Except NormError NormOutput :=
  match duration_h with
  | some d =>
    if 0 < d ∧ 2 ≤ (transformMap data).length then
      if deltaMin (transformMap data) = 0 then Except.error NormError.zeroDivisionError
      else
        Except.ok ⟨region,
          pySliceTo (transformMap data) ((d : ℤ) * ptsPerHour (transformMap data))⟩
    else Except.ok ⟨region, transformMap data⟩
  | Option.none => Except.ok ⟨region, transformMap data⟩

/-- `slice_forecast(full_path, duration_h, out_path)` of
src/cbudget/fetch_forecast.py, with the full forecast's `"data"` list as
input and the sliced list as output: keep the points with timestamp before
`cutoff = t0 + timedelta(hours=duration_h)`. -/
def slice_forecast (pts : List Sample) (duration_h : ℕ) :
    Except NormError (List Sample) :=
  if pts.length = 0 then Except.error NormError.noDataError
  else
    Except.ok (pts.filter fun p =>
      decide (p.1 < (pts.getD 0 (0, 0)).1 + 3600 * duration_h))

/-! ### enforce_budget.py -/

/-- A Python value as extracted from the OPA JSON output, with its
truthiness (only the shapes relevant to `if not value:` are modelled). -/
inductive PyVal where
  | pynone
  | pybool (b : Bool)
  | pyint (n : ℤ)
  | pystr (s : String)
  | pylist (size : ℕ)
  deriving DecidableEq

/-- Python truthiness of an extracted value, as used by `if not value:`. -/
def PyVal.truthy : PyVal → Bool
  | PyVal.pynone => false
  | PyVal.pybool b => b
  | PyVal.pyint n => decide (n ≠ 0)
  | PyVal.pystr s => decide (s.length ≠ 0)
  | PyVal.pylist size => decide (size ≠ 0)

/-- The observable outcome of the `opa eval` subprocess: its return code,
and the result of `json.loads(proc.stdout)["result"][0]["expressions"][0]["value"]`
(`Option.none` when that parse-and-extract chain raises, e.g. malformed JSON
or an empty `"result"` array). -/
structure OpaProc where
  returncode : ℤ
  extracted : Option PyVal
  deriving DecidableEq

/-- The outcome of one run of `enforce_budget`:
`zeroDivisionError` is the unhandled `ZeroDivisionError` of
`threshold_g / duration_h`; `policyNotFound` and `opaNotFound` are the two
`sys.exit(4)` branches; `opaEvalError` is the `sys.exit(5)` on a nonzero
OPA return code; `parseError` is the `sys.exit(5)` on a failed
parse/extraction of the OPA output; `denied` is the `sys.exit(5)` of the
"Rate enforcement failed" branch; `allowedOk` is the normal return.
`denied` and `allowedOk` carry the two rates printed in the message. -/
inductive EnfResult where
  | zeroDivisionError
  | policyNotFound
  | opaNotFound
  | opaEvalError (code : ℤ)
  | parseError
  | denied (predicted allowed : ℚ)
  | allowedOk (predicted allowed : ℚ)
  deriving DecidableEq

/-- `enforce_budget(emission_rate_gph, threshold_g, duration_h, policy_file)`
of src/cbudget/enforce_budget.py.  `policyExists` models
`Path(policy_file).exists()`, `opaFound` models the success of the
`shutil.which("opa")` / `/usr/local/bin/opa` lookup, and `proc` is the
outcome of the `subprocess.run` of `opa eval` (an external capability). -/
def enforce_budget (emission_rate_gph threshold_g duration_h : ℚ)
    (policyExists opaFound : Bool) (proc : OpaProc) : EnfResult :=
  if policyExists = false then EnfResult.policyNotFound
  else if duration_h = 0 then EnfResult.zeroDivisionError
  else if opaFound = false then EnfResult.opaNotFound
  else if proc.returncode ≠ 0 then EnfResult.opaEvalError proc.returncode
  else
    match proc.extracted with
    | Option.none => EnfResult.parseError
    | some v =>
      if v.truthy = false then
        EnfResult.denied emission_rate_gph (threshold_g / duration_h)
      else EnfResult.allowedOk emission_rate_gph (threshold_g / duration_h)

/-- The process exit code produced by each outcome (`Option.none` when
`enforce_budget` returns without calling `sys.exit`, i.e. on the success
path; the unhandled `ZeroDivisionError` also calls no `sys.exit`). -/
def exitCode : EnfResult → Option ℕ
  | EnfResult.zeroDivisionError => Option.none
  | EnfResult.policyNotFound => some 4
  | EnfResult.opaNotFound => some 4
  | EnfResult.opaEvalError _ => some 5
  | EnfResult.parseError => some 5
  | EnfResult.denied _ _ => some 5
  | EnfResult.allowedOk _ _ => Option.none

/-- A `Denied` outcome: the evaluator ran, returned a value, and the value
was falsy. -/
def EnfResult.isDenied : EnfResult → Bool
  | EnfResult.denied _ _ => true
  | _ => false

/-- An `EvaluationError` outcome: the evaluator process failed (nonzero
return code) or its output could not be parsed. -/
def EnfResult.isEvalError : EnfResult → Bool
  | EnfResult.opaEvalError _ => true
  | EnfResult.parseError => true
  | _ => false

/-! ### Helper lemmas -/

theorem mergeSort_tsLe_of_sorted {l : List Sample}
    (h : l.Pairwise fun a b : Sample => a.1 ≤ b.1) : l.mergeSort tsLe = l :=
  List.mergeSort_of_sorted (h.imp fun hab => by simpa [tsLe] using hab)

theorem pairwise_mergeSort_tsLe (l : List Sample) :
    (l.mergeSort tsLe).Pairwise fun a b : Sample => a.1 ≤ b.1 := by
  have h := @List.sorted_mergeSort Sample tsLe
    (fun a b c hab hbc => by
      simp only [tsLe, decide_eq_true_eq] at *
      exact le_trans hab hbc)
    (fun a b => by
      simp only [tsLe, Bool.or_eq_true, decide_eq_true_eq]
      exact le_total a.1 b.1) l
  exact h.imp fun hab => by simpa [tsLe] using hab

/-- Invariant of the sliding loop: folding `slideStep` over the first `m`
window indices yields the first window index attaining the minimum block
average among the first `m`. -/
theorem foldl_slideStep_spec (samples : List Sample) (w : ℕ) (m : ℕ) (hm : 1 ≤ m) :
    ∃ i, i < m
      ∧ (List.range m).foldl (slideStep samples w) Option.none
          = some (blockStartTs samples w i, blockAvg samples w i)
      ∧ (∀ j, j < m → blockAvg samples w i ≤ blockAvg samples w j)
      ∧ (∀ j, j < i → blockAvg samples w i < blockAvg samples w j) := by
  induction m, hm using Nat.le_induction with
  | base =>
    refine ⟨0, by omega, ?_, ?_, ?_⟩
    · show (List.range 1).foldl (slideStep samples w) Option.none = _
      rw [List.range_succ, List.range_zero]
      simp [slideStep]
    · intro j hj
      have : j = 0 := by omega
      subst this
      exact le_refl _
    · intro j hj
      omega
  | succ n hn ih =>
    obtain ⟨i, hi, heq, hmin, hfirst⟩ := ih
    rw [List.range_succ, List.foldl_append, heq]
    by_cases h : blockAvg samples w n < blockAvg samples w i
    · refine ⟨n, by omega, ?_, ?_, ?_⟩
      · simp only [List.foldl_cons, List.foldl_nil, slideStep]
        rw [if_pos h]
      · intro j hj
        rcases Nat.lt_succ_iff_lt_or_eq.mp hj with hj' | rfl
        · exact le_of_lt (lt_of_lt_of_le h (hmin j hj'))
        · exact le_refl _
      · intro j hj
        exact lt_of_lt_of_le h (hmin j hj)
    · refine ⟨i, by omega, ?_, ?_, ?_⟩
      · simp only [List.foldl_cons, List.foldl_nil, slideStep]
        rw [if_neg h]
      · intro j hj
        rcases Nat.lt_succ_iff_lt_or_eq.mp hj with hj' | rfl
        · exact hmin j hj'
        · exact le_of_not_lt h
      · exact hfirst

/-- Success-path characterisation of `findCore`: when the derived window
size is between 1 and the series length, the result is the earliest window
with minimal average. -/
theorem findCore_spec (samples : List Sample) (d : ℕ)
    (h2 : 2 ≤ samples.length) (hg : firstGap samples ≠ 0)
    (hw1 : 1 ≤ windowSizeOf samples d)
    (hwn : windowSizeOf samples d ≤ samples.length) :
    ∃ i, i + windowSizeOf samples d ≤ samples.length
      ∧ findCore samples d
          = Except.ok (blockStartTs samples (windowSizeOf samples d) i,
              blockStartTs samples (windowSizeOf samples d) i + 3600 * d,
              blockAvg samples (windowSizeOf samples d) i)
      ∧ (∀ j, j + windowSizeOf samples d ≤ samples.length →
          blockAvg samples (windowSizeOf samples d) i
            ≤ blockAvg samples (windowSizeOf samples d) j)
      ∧ (∀ j, j < i →
          blockAvg samples (windowSizeOf samples d) i
            < blockAvg samples (windowSizeOf samples d) j) := by
  obtain ⟨i, hi, heq, hmin, hfirst⟩ :=
    foldl_slideStep_spec samples (windowSizeOf samples d)
      (samples.length - windowSizeOf samples d + 1) (by omega)
  refine ⟨i, by omega, ?_, ?_, hfirst⟩
  · simp only [findCore]
    rw [if_neg (by omega : ¬ samples.length < 2), if_neg hg,
      if_neg (by omega : ¬ windowSizeOf samples d > samples.length),
      if_neg (by omega : ¬ windowSizeOf samples d = 0), heq]
  · intro j hj
    exact hmin j (by omega)

/-! ### Claims -/

/-- The forecast series of the spec's end-to-end scenario: 4 hourly samples
with values 10, 20, 5, 15 g/kWh starting at 2024-01-01T00:00Z
(= 1704067200 s). -/
def c1pts : List Sample :=
  [(1704067200, 10), (1704070800, 20), (1704074400, 5), (1704078000, 15)]

/-- C1, counterexample: on the spec's series [10, 20, 5, 15] with duration
2 h, `find_optimal_window` does NOT return the window at index 1 (start
01:00Z = 1704070800, end 03:00Z = 1704078000, average 12.5): the window
[5, 15] at index 2 has the strictly smaller average 10. -/
theorem C1_counterexample :
    find_optimal_window c1pts 2 ≠ Except.ok (1704070800, 1704078000, 25 / 2) := by
  rw [find_optimal_window, mergeSort_tsLe_of_sorted (by norm_num [c1pts])]
  norm_num [c1pts, findCore, firstGap, windowSizeOf, samplesPerHourOf, slideStep,
    blockAvg, blockOf, blockStartTs, List.range_succ]

/-- C1, amended: for the series of 4 hourly samples with values
[10, 20, 5, 15] g/kWh starting at 2024-01-01T00:00Z and requested duration
2 hours, `find_optimal_window` returns the window of samples [5, 15] at
index 2, i.e. start 2024-01-01T02:00Z (1704074400), end 2024-01-01T04:00Z
(1704081600), and average intensity 10. -/
theorem C1_amended_window :
    find_optimal_window c1pts 2 = Except.ok (1704074400, 1704081600, 10) := by
  rw [find_optimal_window, mergeSort_tsLe_of_sorted (by norm_num [c1pts])]
  norm_num [c1pts, findCore, firstGap, windowSizeOf, samplesPerHourOf, slideStep,
    blockAvg, blockOf, blockStartTs, List.range_succ]

/-- C10: for any series of at least 2 sorted samples whose gap between the
first two timestamps exceeds one hour and any positive duration, the
inferred samples_per_hour is 0, hence window_size is 0, the WindowTooLarge
guard does not fire, and `find_optimal_window` raises an unhandled
division-by-zero when averaging. -/
theorem C10_zero_division : ∀ (pts : List Sample) (d : ℕ),
    (pts.Pairwise fun a b : Sample => a.1 ≤ b.1) → 2 ≤ pts.length →
    3600 < firstGap pts → 1 ≤ d →
    samplesPerHourOf pts = 0 ∧ windowSizeOf pts d = 0
      ∧ find_optimal_window pts d = Except.error WindowError.zeroDivisionAverage := by
  intro pts d hsort hlen hgap hd
  have hgappos : (0 : ℚ) < firstGap pts := lt_trans (by norm_num) hgap
  have hgap0 : firstGap pts ≠ 0 := ne_of_gt hgappos
  have hsph : samplesPerHourOf pts = 0 := by
    rw [samplesPerHourOf]
    have hfl : Int.floor ((3600 : ℚ) / firstGap pts) = 0 := by
      rw [Int.floor_eq_zero_iff]
      refine Set.mem_Ico.mpr ⟨div_nonneg (by norm_num) (le_of_lt hgappos), ?_⟩
      rw [div_lt_one hgappos]
      exact hgap
    rw [hfl]
    rfl
  have hws : windowSizeOf pts d = 0 := by
    rw [windowSizeOf, hsph, Nat.mul_zero]
  refine ⟨hsph, hws, ?_⟩
  rw [find_optimal_window, mergeSort_tsLe_of_sorted hsort]
  simp only [findCore]
  rw [if_neg (by omega : ¬ pts.length < 2), if_neg hgap0, hws,
    if_neg (by omega : ¬ 0 > pts.length), if_pos rfl]

/-- C10, witness: the 2-hour-spaced series [(0, 1), (7200, 2)] with
duration 1 h hits the division-by-zero. -/
theorem C10_witness :
    ([((0 : ℚ), (1 : ℚ)), ((7200 : ℚ), (2 : ℚ))].Pairwise
        fun a b : Sample => a.1 ≤ b.1)
    ∧ (samplesPerHourOf [(0, 1), (7200, 2)] = 0
      ∧ windowSizeOf [(0, 1), (7200, 2)] 1 = 0
      ∧ find_optimal_window [(0, 1), (7200, 2)] 1
          = Except.error WindowError.zeroDivisionAverage) :=
  ⟨by norm_num,
    C10_zero_division [(0, 1), (7200, 2)] 1 (by norm_num) (by norm_num)
      (by norm_num [firstGap]) (by norm_num)⟩

/-- The window-size-in-samples formula asserted by the spec, modelled from
its words: `window_size = round(duration_hours * 3600 / interval_seconds)`
(Python `round` is half-to-even). -/
def specWindowSize (duration_h : ℕ) (interval_seconds : ℚ) : ℤ :=
  roundHalfEven (duration_h * 3600 / interval_seconds)

/-- The series used for the C6 counterexample and witness: 3 samples spaced
45 minutes (2700 s) apart. -/
def c6pts : List Sample := [(0, 1), (2700, 2), (5400, 3)]

/-- C6, counterexample: for the 3-sample series spaced 2700 s apart and
duration 3 h, the spec's formula gives `round(3 * 3600 / 2700) = 4 > 3`
samples, predicting WindowTooLarge, but the code computes
`3 * int(3600 // 2700) = 3` samples and succeeds with the whole-series
average. -/
theorem C6_counterexample :
    specWindowSize 3 2700 = 4 ∧ c6pts.length = 3
      ∧ windowSizeOf c6pts 3 = 3
      ∧ find_optimal_window c6pts 3 = Except.ok (0, 10800, 2) := by
  refine ⟨?_, by norm_num [c6pts], ?_, ?_⟩
  · norm_num [specWindowSize, roundHalfEven]
  · norm_num [c6pts, windowSizeOf, samplesPerHourOf, firstGap]
  · rw [find_optimal_window, mergeSort_tsLe_of_sorted (by norm_num [c6pts])]
    norm_num [c6pts, findCore, firstGap, windowSizeOf, samplesPerHourOf, slideStep,
      blockAvg, blockOf, blockStartTs, List.range_succ]

/-- C6, amended: for every sorted series with at least 2 samples and a
nonzero gap between the first two timestamps, the window optimizer uses
`window_size = duration_h * int(3600 // interval_seconds)` (floor division,
not rounding) samples, fails with WindowTooLarge exactly when
`window_size > len(samples)`, and when `window_size == len(samples)` it
succeeds and returns the whole-series average. -/
theorem C6_amended_window_size : ∀ (samples : List Sample) (d : ℕ),
    (samples.Pairwise fun a b : Sample => a.1 ≤ b.1) → 2 ≤ samples.length →
    firstGap samples ≠ 0 →
    ((find_optimal_window samples d = Except.error WindowError.windowTooLarge
        ↔ windowSizeOf samples d > samples.length)
      ∧ (windowSizeOf samples d = samples.length →
          find_optimal_window samples d
            = Except.ok ((samples.getD 0 (0, 0)).1,
                (samples.getD 0 (0, 0)).1 + 3600 * d,
                (samples.map Prod.snd).sum / samples.length))) := by
  intro samples d hsort hlen hgap
  rw [find_optimal_window, mergeSort_tsLe_of_sorted hsort]
  constructor
  · constructor
    · intro herr
      by_contra hnot
      rcases Nat.eq_zero_or_pos (windowSizeOf samples d) with h0 | h1
      · simp only [findCore] at herr
        rw [if_neg (by omega : ¬ samples.length < 2), if_neg hgap,
          if_neg (by omega : ¬ windowSizeOf samples d > samples.length),
          if_pos h0] at herr
        simp at herr
      · obtain ⟨i, _, heq, _, _⟩ := findCore_spec samples d hlen hgap h1 (by omega)
        rw [heq] at herr
        simp at herr
    · intro hgt
      simp only [findCore]
      rw [if_neg (by omega : ¬ samples.length < 2), if_neg hgap, if_pos hgt]
  · intro hn
    obtain ⟨i, hile, hres, hmin, hfirst⟩ :=
      findCore_spec samples d hlen hgap (by omega) (by omega)
    have hi0 : i = 0 := by omega
    subst hi0
    rw [hres]
    rcases samples with _ | ⟨a, t⟩
    · simp at hlen
    · have hblock : blockOf (a :: t) (windowSizeOf (a :: t) d) 0 = a :: t := by
        rw [blockOf, List.drop_zero, hn, List.take_length]
      rw [blockStartTs, blockAvg, hblock, hn]
      simp

/-- C6, witness: the conclusion of `C6_amended_window_size` at the concrete
series `c6pts` with duration 3 h (where `window_size == len(samples)`). -/
theorem C6_witness :
    (find_optimal_window c6pts 3 = Except.error WindowError.windowTooLarge
        ↔ windowSizeOf c6pts 3 > c6pts.length)
      ∧ (windowSizeOf c6pts 3 = c6pts.length →
          find_optimal_window c6pts 3
            = Except.ok ((c6pts.getD 0 (0, 0)).1,
                (c6pts.getD 0 (0, 0)).1 + 3600 * 3,
                (c6pts.map Prod.snd).sum / c6pts.length)) :=
  C6_amended_window_size c6pts 3 (by norm_num [c6pts]) (by norm_num [c6pts])
    (by norm_num [c6pts, firstGap])

/-- A uniformly spaced series with positive gap is sorted by timestamp. -/
theorem chain_uniform_pairwise {samples : List Sample} {gap : ℚ} (hgap : 0 < gap)
    (hchain : List.Chain' (fun a b : Sample => b.1 - a.1 = gap) samples) :
    samples.Pairwise fun a b : Sample => a.1 ≤ b.1 := by
  have hlt : List.Chain' (fun a b : Sample => a.1 < b.1) samples :=
    hchain.imp fun a b h => by linarith
  haveI : IsTrans Sample (fun a b : Sample => a.1 < b.1) :=
    ⟨fun a b c hab hbc => lt_trans hab hbc⟩
  exact (List.chain'_iff_pairwise.mp hlt).imp fun h => le_of_lt h

/-- In a uniformly spaced series with at least 2 samples, the inferred
interval equals the gap. -/
theorem chain_uniform_firstGap {samples : List Sample} {gap : ℚ}
    (hlen : 2 ≤ samples.length)
    (hchain : List.Chain' (fun a b : Sample => b.1 - a.1 = gap) samples) :
    firstGap samples = gap := by
  rcases samples with _ | ⟨a, t⟩
  · simp at hlen
  · rcases t with _ | ⟨b, t'⟩
    · simp at hlen
    · rw [List.chain'_cons] at hchain
      simpa [firstGap] using hchain.1

/-- C7: for every series of n uniformly spaced samples and derived window
size k with 1 ≤ k ≤ n, `find_optimal_window` returns the average of a
contiguous block of k samples that equals the minimum over all n - k + 1
contiguous block averages, and among blocks attaining that minimum it
returns the one with the lowest start index. -/
theorem C7_window_minimality : ∀ (samples : List Sample) (duration_h : ℕ) (gap : ℚ),
    0 < gap →
    List.Chain' (fun a b : Sample => b.1 - a.1 = gap) samples →
    2 ≤ samples.length →
    1 ≤ windowSizeOf samples duration_h →
    windowSizeOf samples duration_h ≤ samples.length →
    ∃ i, i + windowSizeOf samples duration_h ≤ samples.length
      ∧ find_optimal_window samples duration_h
          = Except.ok (blockStartTs samples (windowSizeOf samples duration_h) i,
              blockStartTs samples (windowSizeOf samples duration_h) i
                + 3600 * duration_h,
              blockAvg samples (windowSizeOf samples duration_h) i)
      ∧ (∀ j, j + windowSizeOf samples duration_h ≤ samples.length →
          blockAvg samples (windowSizeOf samples duration_h) i
            ≤ blockAvg samples (windowSizeOf samples duration_h) j)
      ∧ (∀ j, j < i →
          blockAvg samples (windowSizeOf samples duration_h) i
            < blockAvg samples (windowSizeOf samples duration_h) j) := by
  intro samples d gap hgap hchain hlen hw1 hwn
  have hsort := chain_uniform_pairwise hgap hchain
  have hg : firstGap samples ≠ 0 := by
    rw [chain_uniform_firstGap hlen hchain]
    exact ne_of_gt hgap
  simp only [find_optimal_window, mergeSort_tsLe_of_sorted hsort]
  exact findCore_spec samples d hlen hg hw1 hwn

/-- C7, witness: the theorem applied to the hourly series
[(0, 3), (3600, 1), (7200, 2)] with duration 1 h (window size 1). -/
theorem C7_witness :
    ∃ i, i + windowSizeOf [((0 : ℚ), (3 : ℚ)), (3600, 1), (7200, 2)] 1 ≤ 3
      ∧ find_optimal_window [(0, 3), (3600, 1), (7200, 2)] 1
          = Except.ok
              (blockStartTs [(0, 3), (3600, 1), (7200, 2)]
                (windowSizeOf [(0, 3), (3600, 1), (7200, 2)] 1) i,
              blockStartTs [(0, 3), (3600, 1), (7200, 2)]
                (windowSizeOf [(0, 3), (3600, 1), (7200, 2)] 1) i + 3600 * 1,
              blockAvg [(0, 3), (3600, 1), (7200, 2)]
                (windowSizeOf [(0, 3), (3600, 1), (7200, 2)] 1) i)
      ∧ (∀ j, j + windowSizeOf [(0, 3), (3600, 1), (7200, 2)] 1 ≤ 3 →
          blockAvg [(0, 3), (3600, 1), (7200, 2)]
              (windowSizeOf [(0, 3), (3600, 1), (7200, 2)] 1) i
            ≤ blockAvg [(0, 3), (3600, 1), (7200, 2)]
              (windowSizeOf [(0, 3), (3600, 1), (7200, 2)] 1) j)
      ∧ (∀ j, j < i →
          blockAvg [(0, 3), (3600, 1), (7200, 2)]
              (windowSizeOf [(0, 3), (3600, 1), (7200, 2)] 1) i
            < blockAvg [(0, 3), (3600, 1), (7200, 2)]
              (windowSizeOf [(0, 3), (3600, 1), (7200, 2)] 1) j) :=
  C7_window_minimality [(0, 3), (3600, 1), (7200, 2)] 1 3600 (by norm_num)
    (by norm_num [List.chain'_cons]) (by norm_num)
    (by norm_num [windowSizeOf, samplesPerHourOf, firstGap])
    (by norm_num [windowSizeOf, samplesPerHourOf, firstGap])

/-- Two orders of the same multiset of points, containing two distinct
points with the same timestamp 7200. -/
def c9a : List Sample := [(0, 10), (3600, 10), (7200, 0), (7200, 100), (10800, 10)]

/-- The same points as `c9a` with the two timestamp-7200 points swapped. -/
def c9b : List Sample := [(0, 10), (3600, 10), (7200, 100), (7200, 0), (10800, 10)]

/-- C9, counterexample: the two files `c9a` and `c9b` hold the same
multiset of points, yet `find_optimal_window` (whose stable sort preserves
the input order of the two equal-timestamp points) returns different
optimal windows for them: start 3600 for `c9a` but start 7200 for `c9b`. -/
theorem C9_counterexample :
    c9a.Perm c9b
      ∧ find_optimal_window c9a 2 = Except.ok (3600, 10800, 5)
      ∧ find_optimal_window c9b 2 = Except.ok (7200, 14400, 5)
      ∧ find_optimal_window c9a 2 ≠ find_optimal_window c9b 2 := by
  have ha : find_optimal_window c9a 2 = Except.ok (3600, 10800, 5) := by
    rw [find_optimal_window, mergeSort_tsLe_of_sorted (by norm_num [c9a])]
    norm_num [c9a, findCore, firstGap, windowSizeOf, samplesPerHourOf, slideStep,
      blockAvg, blockOf, blockStartTs, List.range_succ]
  have hb : find_optimal_window c9b 2 = Except.ok (7200, 14400, 5) := by
    rw [find_optimal_window, mergeSort_tsLe_of_sorted (by norm_num [c9b])]
    norm_num [c9b, findCore, firstGap, windowSizeOf, samplesPerHourOf, slideStep,
      blockAvg, blockOf, blockStartTs, List.range_succ]
  refine ⟨?_, ha, hb, ?_⟩
  · exact List.Perm.cons _ (List.Perm.cons _ (List.Perm.swap (7200, 100) (7200, 0) _))
  · rw [ha, hb]
    intro hcontra
    simp only [Except.ok.injEq, Prod.mk.injEq] at hcontra
    norm_num at hcontra

/-- C9, amended: the result of `find_optimal_window` is invariant under any
permutation of the order of the points provided the points' timestamps are
pairwise distinct (the function sorts by timestamp itself; with duplicate
timestamps the stable sort preserves input order of ties, so permutation
invariance can fail, see the counterexample). -/
theorem C9_amended_perm_invariance : ∀ (l1 l2 : List Sample) (d : ℕ),
    l1.Perm l2 → (l1.map Prod.fst).Nodup →
    find_optimal_window l1 d = find_optimal_window l2 d := by
  intro l1 l2 d hperm hnodup
  have key : l1.mergeSort tsLe = l2.mergeSort tsLe := by
    have hperm' : (l1.mergeSort tsLe).Perm (l2.mergeSort tsLe) :=
      ((List.mergeSort_perm l1 tsLe).trans hperm).trans
        (List.mergeSort_perm l2 tsLe).symm
    have hn1 : ((l1.mergeSort tsLe).map Prod.fst).Nodup :=
      (((List.mergeSort_perm l1 tsLe).map Prod.fst).nodup_iff).mpr hnodup
    have hn2 : ((l2.mergeSort tsLe).map Prod.fst).Nodup :=
      (((List.mergeSort_perm l2 tsLe).map Prod.fst).nodup_iff).mpr
        (((hperm.map Prod.fst).nodup_iff).mp hnodup)
    have hstrict1 : (l1.mergeSort tsLe).Pairwise fun a b : Sample => a.1 < b.1 :=
      ((pairwise_mergeSort_tsLe l1).and (List.pairwise_map.mp hn1)).imp
        fun h => lt_of_le_of_ne h.1 h.2
    have hstrict2 : (l2.mergeSort tsLe).Pairwise fun a b : Sample => a.1 < b.1 :=
      ((pairwise_mergeSort_tsLe l2).and (List.pairwise_map.mp hn2)).imp
        fun h => lt_of_le_of_ne h.1 h.2
    haveI : IsAntisymm Sample fun a b : Sample => a.1 < b.1 :=
      ⟨fun a b h1 h2 => absurd (lt_trans h1 h2) (lt_irrefl _)⟩
    exact List.eq_of_perm_of_sorted hperm' hstrict1 hstrict2
  rw [find_optimal_window, find_optimal_window, key]

/-- C9, witness: the theorem applied to two orders of a 2-point series with
distinct timestamps. -/
theorem C9_witness :
    find_optimal_window [((3600 : ℚ), (5 : ℚ)), (0, 7)] 1
      = find_optimal_window [((0 : ℚ), (7 : ℚ)), (3600, 5)] 1 :=
  C9_amended_perm_invariance _ _ 1 (List.Perm.swap (0, 7) (3600, 5) [])
    (by norm_num)

/-- Evaluation helper for `roundHalfEven` at a known floor. -/
theorem roundHalfEven_eval (q : ℚ) (n : ℤ) (h : Int.floor q = n) :
    roundHalfEven q
      = if q - n < 1 / 2 then n
        else if 1 / 2 < q - n then n + 1
        else if 2 ∣ n then n else n + 1 := by
  rw [roundHalfEven, h]

/-- `round(1 * 0.453592, 2) = 0.45`. -/
theorem pyRound2_cf_one : pyRound2 (1 * conversionFactor) = 9 / 20 := by
  rw [pyRound2, conversionFactor, roundHalfEven_eval _ 45 (by norm_num)]
  norm_num

/-- `round(100 * 0.453592, 2) = 45.36`. -/
theorem pyRound2_cf_hundred : pyRound2 (100 * conversionFactor) = 1134 / 25 := by
  rw [pyRound2, conversionFactor, roundHalfEven_eval _ 4535 (by norm_num)]
  norm_num

/-- C2, counterexample: the normaliser does not sort.  For the two-point
payload with timestamps 3600, 0 (in that order), `save_transformed_json`
writes the series in input order, which is not non-decreasing by
timestamp. -/
theorem C2_counterexample :
    save_transformed_json [(3600, 1), (0, 1)] "us-west2" Option.none
        = Except.ok ⟨"us-west2", [(3600, 9 / 20), (0, 9 / 20)]⟩
      ∧ ¬ ([((3600 : ℚ), (9 / 20 : ℚ)), (0, 9 / 20)].Pairwise
            fun a b : Sample => a.1 ≤ b.1) := by
  constructor
  · simp only [save_transformed_json, transformMap, List.map_cons, List.map_nil,
      pyRound2_cf_one, Except.ok.injEq, NormOutput.mk.injEq]
  · norm_num [List.pairwise_cons]

/-- C2, amended: the normaliser preserves the input order of the points and
does not sort: with no truncation requested, the written series carries
exactly the input timestamps in input order; consequently the output is
non-decreasing by timestamp whenever the input already is, and normalizing
an already-sorted series leaves the order of its points unchanged. -/
theorem C2_amended_order : ∀ (pts : List RawPoint) (r : String),
    save_transformed_json pts r Option.none = Except.ok ⟨r, transformMap pts⟩
      ∧ (transformMap pts).map Prod.fst = pts.map Prod.fst
      ∧ ((pts.map Prod.fst).Pairwise (fun a b : ℚ => a ≤ b) →
          ((transformMap pts).map Prod.fst).Pairwise fun a b : ℚ => a ≤ b) := by
  intro pts r
  have hmap : (transformMap pts).map Prod.fst = pts.map Prod.fst := by
    rw [transformMap, List.map_map]
    rfl
  refine ⟨rfl, hmap, ?_⟩
  intro hs
  rwa [hmap]

/-- C2, witness: the already-sorted two-point payload [(0, 1), (3600, 1)]
is written unchanged in order, with sorted output. -/
theorem C2_witness :
    save_transformed_json [(0, 1), (3600, 1)] "us-west2" Option.none
        = Except.ok ⟨"us-west2", transformMap [(0, 1), (3600, 1)]⟩
      ∧ ((transformMap [((0 : ℚ), (1 : ℚ)), (3600, 1)]).map Prod.fst).Pairwise
          fun a b : ℚ => a ≤ b := by
  obtain ⟨h1, _, h3⟩ := C2_amended_order [(0, 1), (3600, 1)] "us-west2"
  exact ⟨h1, h3 (by norm_num)⟩

/-- In a uniformly ascending series, every later sample's timestamp is
strictly above the head's. -/
theorem chain_head_lt (t : List Sample) (x : Sample) (gap : ℚ) (hgap : 0 < gap)
    (hchain : List.Chain' (fun a b : Sample => b.1 - a.1 = gap) (x :: t)) :
    ∀ p ∈ t, x.1 < p.1 := by
  induction t generalizing x with
  | nil =>
    intro p hp
    simp at hp
  | cons y t' ih =>
    rw [List.chain'_cons] at hchain
    intro p hp
    rcases List.mem_cons.mp hp with rfl | hp'
    · linarith [hchain.1]
    · exact lt_trans (by linarith [hchain.1]) (ih y hchain.2 p hp')

/-- On a uniformly spaced series starting at `t0`, the timestamp cutoff
`t0 + gap * d` retains exactly the first `d` samples. -/
theorem chain_filter_eq_take :
    ∀ (l : List Sample) (gap t0 c : ℚ) (d : ℕ), 0 < gap →
      (l ≠ [] → (l.getD 0 (0, 0)).1 = t0) →
      List.Chain' (fun a b : Sample => b.1 - a.1 = gap) l →
      c = t0 + gap * d →
      l.filter (fun p => decide (p.1 < c)) = l.take d := by
  intro l
  induction l with
  | nil =>
    intro gap t0 c d _ _ _ _
    simp
  | cons x t ih =>
    intro gap t0 c d hgap hhead hchain hc
    have hx : x.1 = t0 := by simpa using hhead (by simp)
    rcases d with _ | d'
    · have hcx : decide (x.1 < c) = false := by
        simp only [decide_eq_false_iff_not]
        rw [hx, hc]
        push_cast
        simp
      have htail : t.filter (fun p => decide (p.1 < c)) = [] := by
        rw [List.filter_eq_nil_iff]
        intro p hp
        have hlt := chain_head_lt t x gap hgap hchain p hp
        simp only [decide_eq_true_eq, not_lt]
        rw [hc, hx] at *
        push_cast
        linarith
      simp [List.filter_cons, hcx, htail]
    · have hcx : decide (x.1 < c) = true := by
        simp only [decide_eq_true_eq]
        rw [hx, hc]
        have hpos : (0 : ℚ) < gap * ((d' : ℚ) + 1) := by positivity
        push_cast
        linarith
      rcases t with _ | ⟨y, t'⟩
      · simp [List.filter_cons, hcx]
      · have hchain' := List.chain'_cons.mp hchain
        have hih := ih gap (t0 + gap) c d' hgap
          (fun _ => by
            simp only [List.getD_cons_zero]
            linarith [hchain'.1])
          hchain'.2
          (by rw [hc]; push_cast; ring)
        rw [List.filter_cons, if_pos hcx, List.take_succ_cons, hih]

/-- C5, counterexample: for the irregular payload with point times 0, 3600,
5400 and a 2-hour maximum duration, the normaliser's truncation is
count-based: it computes `keep = 2 * round(60/60) = 2` and keeps only the
first 2 samples, dropping the 5400 s sample — yet `slice_forecast`'s
timestamp criterion (cutoff `0 + 2 h = 7200`) retains all three. -/
theorem C5_counterexample :
    save_transformed_json [(0, 100), (3600, 100), (5400, 100)] "us-west2" (some 2)
        = Except.ok ⟨"us-west2", [(0, 1134 / 25), (3600, 1134 / 25)]⟩
      ∧ slice_forecast [(0, 1134 / 25), (3600, 1134 / 25), (5400, 1134 / 25)] 2
        = Except.ok [((0 : ℚ), (1134 / 25 : ℚ)), (3600, 1134 / 25), (5400, 1134 / 25)] := by
  constructor
  · have hpph : ptsPerHour [((0 : ℚ), (1134 / 25 : ℚ)), (3600, 1134 / 25), (5400, 1134 / 25)] = 1 := by
      rw [ptsPerHour, deltaMin]
      rw [show (60 : ℚ) / ((([((0 : ℚ), (1134 / 25 : ℚ)), (3600, 1134 / 25), (5400, 1134 / 25)].getD 1 (0, 0)).1
        - ([((0 : ℚ), (1134 / 25 : ℚ)), (3600, 1134 / 25), (5400, 1134 / 25)].getD 0 (0, 0)).1) / 60) = 1 by norm_num]
      rw [roundHalfEven_eval _ 1 (by norm_num)]
      norm_num
    simp only [save_transformed_json, transformMap, List.map_cons, List.map_nil,
      pyRound2_cf_hundred]
    rw [if_pos (by norm_num), if_neg (by norm_num [deltaMin]), hpph]
    rw [pySliceTo, if_pos (by norm_num)]
    rfl
  · rw [slice_forecast, if_neg (by norm_num)]
    norm_num [List.filter_cons, decide_eq_true_eq]

/-- C5, amended: when a maximum duration is given, the normaliser retains a
fixed count of samples, `keep = duration_h * int(round(60/delta_min))`,
derived from the inferred samples-per-hour — a count-based criterion, not
the timestamp cutoff; the timestamp-cutoff criterion is implemented by the
separate `slice_forecast`.  On exactly hourly spaced input the two
criteria agree: the truncated output is the first `duration_h` samples,
and it equals what the timestamp cutoff `first_timestamp + duration`
retains. -/
theorem C5_amended_truncation : ∀ (pts : List RawPoint) (r : String) (d : ℕ),
    1 ≤ d → 2 ≤ pts.length →
    List.Chain' (fun a b : RawPoint => b.1 - a.1 = 3600) pts →
    ∀ full trunc : NormOutput,
      save_transformed_json pts r Option.none = Except.ok full →
      save_transformed_json pts r (some d) = Except.ok trunc →
      trunc.data = (transformMap pts).take d
        ∧ slice_forecast full.data d = Except.ok trunc.data := by
  intro pts r d hd hlen hchain full trunc hfull htrunc
  have hfull' : full = ⟨r, transformMap pts⟩ := by
    simp only [save_transformed_json, Except.ok.injEq] at hfull
    exact hfull.symm
  have hlenT : (transformMap pts).length = pts.length := by
    rw [transformMap, List.length_map]
  have hchainT : List.Chain' (fun a b : Sample => b.1 - a.1 = 3600)
      (transformMap pts) := by
    rw [transformMap]
    exact (List.chain'_map _).mpr hchain
  obtain ⟨a, t, hm⟩ : ∃ a t, transformMap pts = a :: t :=
    List.exists_cons_of_ne_nil (by
      intro h
      rw [h] at hlenT
      simp at hlenT
      omega)
  obtain ⟨b, t', ht⟩ : ∃ b t', t = b :: t' :=
    List.exists_cons_of_ne_nil (by
      intro h
      rw [h] at hm
      rw [hm] at hlenT
      simp at hlenT
      omega)
  subst ht
  have hgapab : b.1 - a.1 = 3600 := by
    have hchainT' := hchainT
    rw [hm] at hchainT'
    exact (List.chain'_cons.mp hchainT').1
  have hdelta : deltaMin (transformMap pts) = 60 := by
    rw [hm, deltaMin]
    simp only [List.getD_cons_zero, List.getD_cons_succ]
    rw [hgapab]
    norm_num
  have hpph : ptsPerHour (transformMap pts) = 1 := by
    rw [ptsPerHour, hdelta]
    rw [roundHalfEven_eval _ 1 (by norm_num)]
    norm_num
  have htr' : trunc = ⟨r, (transformMap pts).take d⟩ := by
    simp only [save_transformed_json] at htrunc
    rw [if_pos ⟨by omega, by omega⟩, if_neg (by rw [hdelta]; norm_num)] at htrunc
    rw [hpph] at htrunc
    simp only [mul_one, Except.ok.injEq] at htrunc
    rw [← htrunc, pySliceTo, if_pos (Int.natCast_nonneg d)]
    simp
  refine ⟨by rw [htr'], ?_⟩
  rw [hfull', htr']
  show slice_forecast (transformMap pts) d = Except.ok ((transformMap pts).take d)
  rw [slice_forecast, if_neg (by omega)]
  congr 1
  exact chain_filter_eq_take (transformMap pts) 3600
    (((transformMap pts).getD 0 (0, 0)).1) _ d (by norm_num) (fun _ => rfl)
    hchainT rfl

/-- C5, witness: the conclusion of `C5_amended_truncation` for the hourly
payload [(0, 1), (3600, 1)] with duration 1 h. -/
theorem C5_witness :
    (⟨"w", [((0 : ℚ), (9 / 20 : ℚ))]⟩ : NormOutput).data
        = (transformMap [(0, 1), (3600, 1)]).take 1
      ∧ slice_forecast
          (⟨"w", [((0 : ℚ), (9 / 20 : ℚ)), (3600, 9 / 20)]⟩ : NormOutput).data 1
        = Except.ok (⟨"w", [((0 : ℚ), (9 / 20 : ℚ))]⟩ : NormOutput).data :=
  C5_amended_truncation [(0, 1), (3600, 1)] "w" 1 (by norm_num) (by norm_num)
    (by norm_num [List.chain'_cons])
    ⟨"w", [((0 : ℚ), (9 / 20 : ℚ)), (3600, 9 / 20)]⟩
    ⟨"w", [((0 : ℚ), (9 / 20 : ℚ))]⟩
    (by simp only [save_transformed_json, transformMap, List.map_cons, List.map_nil,
      pyRound2_cf_one])
    (by
      have hpph : ptsPerHour [((0 : ℚ), (9 / 20 : ℚ)), (3600, 9 / 20)] = 1 := by
        rw [ptsPerHour, deltaMin]
        rw [show (60 : ℚ) / ((([((0 : ℚ), (9 / 20 : ℚ)), (3600, 9 / 20)].getD 1 (0, 0)).1
          - ([((0 : ℚ), (9 / 20 : ℚ)), (3600, 9 / 20)].getD 0 (0, 0)).1) / 60) = 1 by norm_num]
        rw [roundHalfEven_eval _ 1 (by norm_num)]
        norm_num
      simp only [save_transformed_json, transformMap, List.map_cons, List.map_nil,
        pyRound2_cf_one]
      rw [if_pos (by norm_num), if_neg (by norm_num [deltaMin]), hpph]
      rw [pySliceTo, if_pos (by norm_num)]
      rfl)

/-- C3, counterexample: `enforce_budget` has no `InvalidBudget` guard.
With duration 0 it raises an unhandled `ZeroDivisionError`, and with the
negative duration -2 it does not fail at all: the run proceeds and (here,
with an approving evaluator) succeeds with the negative allowed rate
100 / (-2) = -50 g/h. -/
theorem C3_counterexample :
    enforce_budget 60 100 0 true true ⟨0, some (PyVal.pybool true)⟩
        = EnfResult.zeroDivisionError
      ∧ enforce_budget 60 100 (-2) true true ⟨0, some (PyVal.pybool true)⟩
        = EnfResult.allowedOk 60 (-50)
      ∧ ((-50 : ℚ) < 0) := by
  refine ⟨?_, ?_, by norm_num⟩
  · simp [enforce_budget]
  · simp only [enforce_budget]
    norm_num [PyVal.truthy]

/-- C3, amended: the budget decision computes
`allowed_rate = threshold_g / duration_h` with no validity check on the
duration: when `duration_h = 0` the division raises an unhandled
`ZeroDivisionError` (not an `InvalidBudget` error), and any run that
reaches a denial or success reports exactly the rate
`threshold_g / duration_h` (negative durations are not rejected). -/
theorem C3_amended_budget_rate : ∀ (er t dur : ℚ) (opa : Bool) (proc : OpaProc),
    (dur = 0 → enforce_budget er t dur true opa proc = EnfResult.zeroDivisionError)
      ∧ (∀ p a, enforce_budget er t dur true opa proc = EnfResult.denied p a
            ∨ enforce_budget er t dur true opa proc = EnfResult.allowedOk p a →
          p = er ∧ a = t / dur) := by
  intro er t dur opa proc
  constructor
  · intro h0
    simp [enforce_budget, h0]
  · intro p a hpa
    by_cases h0 : dur = 0
    · simp [enforce_budget, h0] at hpa
    · by_cases hopa : opa = false
      · simp [enforce_budget, h0, hopa] at hpa
      · by_cases hrc : proc.returncode = 0
        · rcases hext : proc.extracted with _ | v
          · simp [enforce_budget, h0, hopa, hrc, hext] at hpa
          · by_cases htr : v.truthy = false
            · simp [enforce_budget, h0, hopa, hrc, hext, htr] at hpa
              exact ⟨hpa.1.symm, hpa.2.symm⟩
            · simp [enforce_budget, h0, hopa, hrc, hext, htr] at hpa
              exact ⟨hpa.1.symm, hpa.2.symm⟩
        · simp [enforce_budget, h0, hopa, hrc] at hpa

/-- C3, witness: `C3_amended_budget_rate` applied at duration 0 with an
otherwise well-behaved environment. -/
theorem C3_witness :
    enforce_budget 60 100 0 true true ⟨0, some (PyVal.pybool true)⟩
      = EnfResult.zeroDivisionError :=
  (C3_amended_budget_rate 60 100 0 true ⟨0, some (PyVal.pybool true)⟩).1 rfl

/-- C4, counterexample: a Denied run and an EvaluationError run that
terminate with the same exit code 5: with threshold 50 g over 1 h and
predicted rate 60 g/h, an evaluator returning false yields `denied` with
`sys.exit(5)`, while an evaluator that exits with code 2 yields
`opaEvalError` — also `sys.exit(5)`. -/
theorem C4_counterexample :
    (enforce_budget 60 50 1 true true ⟨0, some (PyVal.pybool false)⟩).isDenied = true
      ∧ (enforce_budget 60 50 1 true true ⟨2, Option.none⟩).isEvalError = true
      ∧ exitCode (enforce_budget 60 50 1 true true ⟨0, some (PyVal.pybool false)⟩)
          = some 5
      ∧ exitCode (enforce_budget 60 50 1 true true ⟨2, Option.none⟩) = some 5 := by
  refine ⟨?_, ?_, ?_, ?_⟩ <;>
    norm_num [enforce_budget, PyVal.truthy, EnfResult.isDenied,
      EnfResult.isEvalError, exitCode]

theorem exitCode_of_isDenied (r : EnfResult) (h : r.isDenied = true) :
    exitCode r = some 5 := by
  cases r <;> simp_all [EnfResult.isDenied, exitCode]

theorem exitCode_of_isEvalError (r : EnfResult) (h : r.isEvalError = true) :
    exitCode r = some 5 := by
  cases r <;> simp_all [EnfResult.isEvalError, exitCode]

/-- C4, amended: Denied and EvaluationError are NOT reported with different
exit signals: every Denied run and every EvaluationError run terminate with
the same exit code 5 (they differ only in the message printed). -/
theorem C4_amended_exit_codes :
    ∀ (er1 t1 d1 : ℚ) (pe1 of1 : Bool) (p1 : OpaProc)
      (er2 t2 d2 : ℚ) (pe2 of2 : Bool) (p2 : OpaProc),
      (enforce_budget er1 t1 d1 pe1 of1 p1).isDenied = true →
      (enforce_budget er2 t2 d2 pe2 of2 p2).isEvalError = true →
      exitCode (enforce_budget er1 t1 d1 pe1 of1 p1)
          = exitCode (enforce_budget er2 t2 d2 pe2 of2 p2)
        ∧ exitCode (enforce_budget er1 t1 d1 pe1 of1 p1) = some 5 := by
  intro er1 t1 d1 pe1 of1 p1 er2 t2 d2 pe2 of2 p2 h1 h2
  have e1 := exitCode_of_isDenied _ h1
  have e2 := exitCode_of_isEvalError _ h2
  rw [e1, e2]
  exact ⟨rfl, rfl⟩

/-- C4, witness: `C4_amended_exit_codes` applied to a concrete denied run
and a concrete evaluator-failure run. -/
theorem C4_witness :
    exitCode (enforce_budget 60 50 1 true true ⟨0, some (PyVal.pybool false)⟩)
        = exitCode (enforce_budget 60 50 1 true true ⟨2, Option.none⟩)
      ∧ exitCode (enforce_budget 60 50 1 true true ⟨0, some (PyVal.pybool false)⟩)
        = some 5 :=
  C4_amended_exit_codes 60 50 1 true true ⟨0, some (PyVal.pybool false)⟩
    60 50 1 true true ⟨2, Option.none⟩
    (by norm_num [enforce_budget, PyVal.truthy, EnfResult.isDenied])
    (by norm_num [enforce_budget, EnfResult.isEvalError])

/-- C8, counterexample: a successful evaluator process (exit 0) whose
output yields no extractable result value (e.g. an empty `"result"` array)
is classified as a parse failure — an EvaluationError — not as Denied,
contrary to the claim that a missing result is treated as "not allowed". -/
theorem C8_counterexample :
    enforce_budget 60 100 2 true true ⟨0, Option.none⟩ = EnfResult.parseError
      ∧ (enforce_budget 60 100 2 true true ⟨0, Option.none⟩).isDenied = false
      ∧ (enforce_budget 60 100 2 true true ⟨0, Option.none⟩).isEvalError = true := by
  refine ⟨?_, ?_, ?_⟩ <;>
    norm_num [enforce_budget, EnfResult.isDenied, EnfResult.isEvalError]

theorem isDenied_isEvalError_disjoint (r : EnfResult) :
    ¬(r.isDenied = true ∧ r.isEvalError = true) := by
  cases r <;> simp [EnfResult.isDenied, EnfResult.isEvalError]

/-- C8, amended: when the evaluator process succeeds and yields a present
but empty/falsy result value, the run is classified as Denied; a process
failure or a missing/unextractable result is classified as
EvaluationError; and no run is classified as both. -/
theorem C8_amended_classification : ∀ (er t dur : ℚ) (proc : OpaProc), dur ≠ 0 →
    (∀ v : PyVal, proc.returncode = 0 → proc.extracted = some v →
        v.truthy = false →
        enforce_budget er t dur true true proc = EnfResult.denied er (t / dur))
      ∧ (proc.returncode ≠ 0 ∨ proc.extracted = Option.none →
          (enforce_budget er t dur true true proc).isEvalError = true)
      ∧ ¬((enforce_budget er t dur true true proc).isDenied = true
          ∧ (enforce_budget er t dur true true proc).isEvalError = true) := by
  intro er t dur proc hdur
  refine ⟨?_, ?_, isDenied_isEvalError_disjoint _⟩
  · intro v hrc hext htr
    simp [enforce_budget, hdur, hrc, hext, htr]
  · intro h
    rcases h with hrc | hext
    · simp [enforce_budget, hdur, hrc, EnfResult.isEvalError]
    · by_cases hrc : proc.returncode = 0
      · simp [enforce_budget, hdur, hrc, hext, EnfResult.isEvalError]
      · simp [enforce_budget, hdur, hrc, EnfResult.isEvalError]

/-- C8, witness: `C8_amended_classification` applied to a run whose
evaluator succeeds with the empty-string (falsy) result value, which is
classified as Denied. -/
theorem C8_witness :
    (∀ v : PyVal, (⟨0, some (PyVal.pystr "")⟩ : OpaProc).returncode = 0 →
        (⟨0, some (PyVal.pystr "")⟩ : OpaProc).extracted = some v →
        v.truthy = false →
        enforce_budget 60 100 2 true true ⟨0, some (PyVal.pystr "")⟩
          = EnfResult.denied 60 (100 / 2))
      ∧ ((⟨0, some (PyVal.pystr "")⟩ : OpaProc).returncode ≠ 0
            ∨ (⟨0, some (PyVal.pystr "")⟩ : OpaProc).extracted = Option.none →
          (enforce_budget 60 100 2 true true
              ⟨0, some (PyVal.pystr "")⟩).isEvalError = true)
      ∧ ¬((enforce_budget 60 100 2 true true
              ⟨0, some (PyVal.pystr "")⟩).isDenied = true
          ∧ (enforce_budget 60 100 2 true true
              ⟨0, some (PyVal.pystr "")⟩).isEvalError = true) :=
  C8_amended_classification 60 100 2 ⟨0, some (PyVal.pystr "")⟩ (by norm_num)
